import Mathlib

/-!
# Verification of the profile-sync engine (`src/backend/profile_sync.py`)

Shallow embedding of the `ProfileSync` class: profile documents are JSON-like
values, the two replica stores are association lists from profile id to
document, and every method that mutates `self` (the log, the stores) or its
dict argument is modelled as a function that returns the updated state and the
updated document.

Modelling notes:
* Python dicts are insertion-ordered maps with unique keys; they are embedded
  as association lists (`List (String × JsonVal)`).  `d[k] = v` updates the
  first occurrence in place or appends, `d.get k default` looks up the first
  occurrence, `{**a, **b}` is the shallow union with `b` winning.
* `json.dumps(x, sort_keys=True)` is embedded as plain serialization after
  recursively sorting every object's fields by key (Python's `sorted` is a
  stable sort; with the unique keys of a dict this coincides with
  `List.insertionSort` on the key order).
* `hashlib.sha256(s.encode()).hexdigest()` is modelled as an injective
  fingerprint of `s` (the spec stipulates a collision-resistant digest, and
  the engine uses the digest only through string equality), concretely as the
  serialization itself.
* `datetime.now().isoformat()` is modelled by the `now` field of the engine
  state: all clock reads during one method call return this string.
* File I/O never fails in the model, so the `except` branches of the source
  are dead; absence of a file is the `none` case.
-/

/-- A JSON value as produced by `json.load`: the profile documents this module
synchronizes.  Numbers are embedded as integers (no claim involves floats). -/
inductive JsonVal where
  | null : JsonVal
  | bool : Bool → JsonVal
  | int : Int → JsonVal
  | str : String → JsonVal
  | arr : List JsonVal → JsonVal
  | obj : List (String × JsonVal) → JsonVal

/-- A profile document: a Python dict from string keys to JSON values,
in insertion order. -/
abbrev Profile := List (String × JsonVal)

/-- Python `d.get(k)` / `d[k]`: value at the first occurrence of key `k`. -/
def dictGet (p : Profile) (k : String) : Option JsonVal :=
  match p with
  | [] => none
  | (k', v) :: rest => if k' = k then some v else dictGet rest k

/-- Python `d[k] = v`: replace the value at an existing key in place, else
append the new binding at the end. -/
def dictSet (p : Profile) (k : String) (v : JsonVal) : Profile :=
  match p with
  | [] => [(k, v)]
  | (k', v') :: rest => if k' = k then (k, v) :: rest else (k', v') :: dictSet rest k v

/-- Python `{**a, **b}`: keys of `a` in order (with `b`'s value on collision),
then the keys only in `b`, in `b`'s order. -/
def dictUnion (a b : Profile) : Profile :=
  a.map (fun kv => (kv.1, (dictGet b kv.1).getD kv.2)) ++
    b.filter (fun kv => (dictGet a kv.1).isNone)

/-- Python truthiness of an optional dict: `None` and the empty dict are
falsy, every non-empty dict is truthy. -/
def pyTruthy : Option Profile → Bool
  | none => false
  | some [] => false
  | some (_ :: _) => true

/-- `d.get(k, default)` restricted to string-valued fields: `some s` when the
field holds the JSON string `s`, `some default` when the key is absent, and
`none` when the field holds a non-string (Python would then raise a
`TypeError` out of the `>` comparison; the claims only concern
string-or-absent metadata). -/
def dictGetStr (p : Profile) (k : String) (default : String) : Option String :=
  match dictGet p k with
  | some (JsonVal.str s) => some s
  | some _ => none
  | none => some default

/-- Total variant used inside the embedding: a non-string field degrades to
the default (see `dictGetStr`; no theorem relies on the non-string case). -/
def dictGetStrD (p : Profile) (k : String) (default : String) : String :=
  match dictGet p k with
  | some (JsonVal.str s) => s
  | some _ => default
  | none => default

/-! ## Canonical serialization (`json.dumps(·, sort_keys=True)`) -/

/-- Lowercase hexadecimal digit. -/
def hexDigit (n : Nat) : Char :=
  if n < 10 then Char.ofNat (48 + n) else Char.ofNat (87 + n)

/-- Four-digit lowercase hex, as in Python's `\uXXXX` escapes. -/
def hex4 (n : Nat) : String :=
  String.mk [hexDigit (n / 4096 % 16), hexDigit (n / 256 % 16),
    hexDigit (n / 16 % 16), hexDigit (n % 16)]

/-- Escape one character the way `json.dumps` (default `ensure_ascii=True`)
does: named escapes for quote, backslash and common control characters,
`\uXXXX` (with surrogate pairs above the BMP) for other characters outside
printable ASCII. -/
def escChar (c : Char) : String :=
  if c = '"' then "\\\""
  else if c = '\\' then "\\\\"
  else if c = '\n' then "\\n"
  else if c = '\r' then "\\r"
  else if c = '\t' then "\\t"
  else if c.toNat = 8 then "\\b"
  else if c.toNat = 12 then "\\f"
  else if 32 ≤ c.toNat ∧ c.toNat ≤ 126 then String.singleton c
  else if c.toNat < 65536 then "\\u" ++ hex4 c.toNat
  else
    "\\u" ++ hex4 (55296 + (c.toNat - 65536) / 1024) ++
      "\\u" ++ hex4 (56320 + (c.toNat - 65536) % 1024)

/-- JSON string literal (`json.encoder.py_encode_basestring_ascii`). -/
def jsonQuote (s : String) : String :=
  "\"" ++ String.join (s.data.map escChar) ++ "\""

/-- Strict lexicographic order on character lists by code point: the order
Python's `<` uses on `str`. -/
def charListLt : List Char → List Char → Bool
  | [], [] => false
  | [], _ :: _ => true
  | _ :: _, [] => false
  | c :: cs, d :: ds => if c < d then true else if d < c then false else charListLt cs ds

/-- Python `a < b` on strings (code-point lexicographic). -/
def pyStrLt (a b : String) : Bool := charListLt a.data b.data

/-- Python `a <= b` on strings. -/
def pyStrLe (a b : String) : Bool := !pyStrLt b a

/-- Key order used by `sort_keys=True`: compare the keys of two fields. -/
def keyLe (a b : String × JsonVal) : Prop := pyStrLe a.1 b.1 = true

instance : DecidableRel keyLe := fun _ _ => inferInstanceAs (Decidable (_ = true))

/-- Sort an object's fields by key (Python's stable `sorted`; dict keys are
unique, so stability never matters and any `≤`-sort agrees with it). -/
def sortFields (fs : List (String × JsonVal)) : List (String × JsonVal) :=
  List.insertionSort keyLe fs

mutual

/-- Recursively sort every object's fields by key.  `json.dumps(·,
sort_keys=True)` sorts each mapping as it serializes; pre-sorting deeply and
then serializing plainly produces the same text. -/
def sortKeysDeep : JsonVal → JsonVal
  | JsonVal.null => JsonVal.null
  | JsonVal.bool b => JsonVal.bool b
  | JsonVal.int n => JsonVal.int n
  | JsonVal.str s => JsonVal.str s
  | JsonVal.arr xs => JsonVal.arr (sortKeysDeepArr xs)
  | JsonVal.obj fs => JsonVal.obj (sortFields (sortKeysDeepObj fs))
termination_by structural v => v

/-- `sortKeysDeep` mapped over an array's elements. -/
def sortKeysDeepArr : List JsonVal → List JsonVal
  | [] => []
  | x :: xs => sortKeysDeep x :: sortKeysDeepArr xs
termination_by structural l => l

/-- `sortKeysDeep` mapped over an object's values. -/
def sortKeysDeepObj : List (String × JsonVal) → List (String × JsonVal)
  | [] => []
  | (k, v) :: fs => (k, sortKeysDeep v) :: sortKeysDeepObj fs
termination_by structural l => l

end

mutual

/-- Serialize a JSON value with `json.dumps`'s default separators
(`", "` between items, `": "` after a key; `indent=None` as in
`get_profile_hash`).  Objects are printed field by field in the order given;
the caller is responsible for sorting (see `sortKeysDeep`). -/
def printJson : JsonVal → String
  | JsonVal.null => "null"
  | JsonVal.bool true => "true"
  | JsonVal.bool false => "false"
  | JsonVal.int n => toString n
  | JsonVal.str s => jsonQuote s
  | JsonVal.arr xs => "[" ++ printJsonArr xs ++ "]"
  | JsonVal.obj fs => "\x7b" ++ printJsonObj fs ++ "\x7d"
termination_by structural v => v

/-- Array elements joined by `", "`. -/
def printJsonArr : List JsonVal → String
  | [] => ""
  | [x] => printJson x
  | x :: y :: xs => printJson x ++ ", " ++ printJsonArr (y :: xs)
termination_by structural l => l

/-- Object fields `"key": value` joined by `", "`. -/
def printJsonObj : List (String × JsonVal) → String
  | [] => ""
  | [(k, v)] => jsonQuote k ++ ": " ++ printJson v
  | (k, v) :: f :: fs => jsonQuote k ++ ": " ++ printJson v ++ ", " ++ printJsonObj (f :: fs)
termination_by structural l => l

end

/-- `json.dumps(v, sort_keys=True)`: the canonical serialization — every
mapping's keys sorted lexicographically at every nesting level. -/
def jsonDumpsSorted (v : JsonVal) : String := printJson (sortKeysDeep v)

/-- Model of `hashlib.sha256(s.encode()).hexdigest()`.  The engine uses the
digest only through string equality, and the spec (§4.2) stipulates a
collision-resistant hash, so SHA-256 is modelled as an injective fingerprint
of its input — concretely, the input itself.  Digest equality in the model is
exactly equality of the hashed strings. -/
def sha256hex (s : String) : String := s

/-- `ProfileSync.get_profile_hash`: SHA-256 of the canonical serialization of
the full document (metadata fields included). -/
def get_profile_hash (profile_data : Profile) : String :=
  sha256hex (jsonDumpsSorted (JsonVal.obj profile_data))

/-! ## Engine state (`ProfileSync.__init__` and the sync log) -/

/-- One entry of `self.sync_log` as built by `log_sync`. -/
structure LogEntry where
  timestamp : String
  level : String
  message : String
deriving DecidableEq, Repr

/-- Python `l[-n:]` for `n > 0`: the suffix of the most recent `n` entries. -/
def takeLast (n : Nat) (l : List α) : List α :=
  l.drop (l.length - n)

/-- The list manipulation inside `log_sync`: append the new entry, then keep
only the last 100 entries when the length exceeds 100
(`self.sync_log = self.sync_log[-100:]`). -/
def logStep (log : List LogEntry) (e : LogEntry) : List LogEntry :=
  if 100 < (log ++ [e]).length then takeLast 100 (log ++ [e]) else log ++ [e]

/-- The mutable state of a `ProfileSync` instance together with the files it
touches.  `localStore` maps a profile id to the parsed content of
`<local_dir>/<id>.json`; `cloudStore` maps it to `<local_dir>/cloud_<id>.json`
(the simulated remote replica).  `hasCloudUrl` is the truthiness of
`self.cloud_url`; `now` is the string `datetime.now().isoformat()` returns
while the engine runs. -/
structure SyncState where
  localStore : List (String × Profile)
  cloudStore : List (String × Profile)
  hasCloudUrl : Bool
  syncLog : List LogEntry
  now : String

/-- Store lookup: the parsed file for a profile id, `none` when absent. -/
def storeGet (st : List (String × Profile)) (k : String) : Option Profile :=
  match st with
  | [] => none
  | (k', v) :: rest => if k' = k then some v else storeGet rest k

/-- Store write: overwrite the file for an id, or create it. -/
def storeSet (st : List (String × Profile)) (k : String) (v : Profile) :
    List (String × Profile) :=
  match st with
  | [] => [(k, v)]
  | (k', v') :: rest => if k' = k then (k, v) :: rest else (k', v') :: storeSet rest k v

/-- `ProfileSync.log_sync`: append a log entry stamped with the current time,
evicting the oldest entries beyond 100. -/
def log_sync (s : SyncState) (message : String) (level : String) : SyncState :=
  { s with syncLog := logStep s.syncLog ⟨s.now, level, message⟩ }

/-- Python `l[i:]` (slice from a possibly negative index), as used by
`get_sync_log`'s `self.sync_log[-limit:]`. -/
def pySliceFrom (l : List α) (i : Int) : List α :=
  if i < 0 then l.drop ((l.length + i).toNat) else l.drop i.toNat

/-- `ProfileSync.get_sync_log`: `self.sync_log[-limit:]`. -/
def get_sync_log (s : SyncState) (limit : Int) : List LogEntry :=
  pySliceFrom s.syncLog (-limit)

/-! ## Replica operations -/

/-- `ProfileSync.load_local_profile`: read `<id>.json`; in the model I/O never
fails, so no log entry is produced and absence is `none`. -/
def load_local_profile (s : SyncState) (profile_id : String) : Option Profile :=
  storeGet s.localStore profile_id

/-- `ProfileSync.fetch_cloud_profile`: `None` immediately when `cloud_url` is
unset; otherwise read the simulated cloud file, logging at `success` level
when it exists. -/
def fetch_cloud_profile (s : SyncState) (profile_id : String) :
    Option Profile × SyncState :=
  if s.hasCloudUrl then
    match storeGet s.cloudStore profile_id with
    | some p => (some p, log_sync s ("Fetched cloud profile " ++ profile_id) "success")
    | none => (none, s)
  else
    (none, s)

/-- `ProfileSync.save_local_profile`: stamp `last_sync` with the current time,
then `sync_hash` with the digest of the document as it stands at that moment
(`last_sync` already set, `sync_hash` still holding any previous value), write
the file and log at `success` level.  The stamped document is returned because
Python mutates the caller's dict in place. -/
def save_local_profile (s : SyncState) (profile_id : String) (profile_data : Profile) :
    Bool × Profile × SyncState :=
  let p1 := dictSet profile_data "last_sync" (JsonVal.str s.now)
  let p2 := dictSet p1 "sync_hash" (JsonVal.str (get_profile_hash p1))
  let s1 := { s with localStore := storeSet s.localStore profile_id p2 }
  (true, p2, log_sync s1 ("Saved local profile " ++ profile_id) "success")

/-- `ProfileSync.push_cloud_profile`: `False` immediately (no write, no stamp)
when `cloud_url` is unset; otherwise stamp `last_cloud_sync` with the current
time, write the simulated cloud file and log at `success` level.  The stamped
document is returned because Python mutates the caller's dict in place. -/
def push_cloud_profile (s : SyncState) (profile_id : String) (profile_data : Profile) :
    Bool × Profile × SyncState :=
  if s.hasCloudUrl then
    let p1 := dictSet profile_data "last_cloud_sync" (JsonVal.str s.now)
    let s1 := { s with cloudStore := storeSet s.cloudStore profile_id p1 }
    (true, p1, log_sync s1 ("Pushed cloud profile " ++ profile_id) "success")
  else
    (false, profile_data, s)

/-! ## Conflict resolution and the sync algorithm -/

/-- `ProfileSync.resolve_conflict`: the four named strategies, falling through
to `return local_profile` (without logging) for any other strategy name. -/
def resolve_conflict (s : SyncState) (local_profile cloud_profile : Profile)
    (strategy : String) : Profile × SyncState :=
  if strategy = "newest" then
    let local_time := dictGetStrD local_profile "last_sync" "1970-01-01T00:00:00"
    let cloud_time := dictGetStrD cloud_profile "last_cloud_sync" "1970-01-01T00:00:00"
    let winner := if pyStrLt cloud_time local_time then local_profile else cloud_profile
    (winner, log_sync s ("Conflict resolved using newest (" ++ strategy ++ ")") "info")
  else if strategy = "local" then
    (local_profile, log_sync s "Conflict resolved using local version" "info")
  else if strategy = "cloud" then
    (cloud_profile, log_sync s "Conflict resolved using cloud version" "info")
  else if strategy = "merge" then
    (dictUnion local_profile cloud_profile,
      log_sync s "Conflict resolved using merge strategy" "info")
  else
    (local_profile, s)

/-- The dict returned by `sync_profile`.  `strategy` is the `'strategy'` key,
present only in the `conflict_resolved` case. -/
structure SyncResult where
  status : String
  action : String
  profile : Option Profile
  strategy : Option String

/-- `ProfileSync.sync_profile`: the four-case reconciliation.  The case guards
are Python truthiness tests (`if local_profile and not cloud_profile:` …), so
an empty document counts as absent.  `Option.getD []` extracts the document in
a branch whose guard has established truthiness (hence `some` of a non-empty
list); the default is never reached. -/
def sync_profile (s : SyncState) (profile_id : String) (strategy : String) :
    SyncResult × SyncState :=
  let localP := load_local_profile s profile_id
  let fetched := fetch_cloud_profile s profile_id
  let cloudP := fetched.1
  let s1 := fetched.2
  if pyTruthy localP && !pyTruthy cloudP then
    -- Case 1: only local exists
    let lp := localP.getD []
    let pushed := push_cloud_profile s1 profile_id lp
    (⟨"synced", "uploaded_to_cloud", some pushed.2.1, none⟩, pushed.2.2)
  else if pyTruthy cloudP && !pyTruthy localP then
    -- Case 2: only cloud exists
    let cp := cloudP.getD []
    let saved := save_local_profile s1 profile_id cp
    (⟨"synced", "downloaded_from_cloud", some saved.2.1, none⟩, saved.2.2)
  else if pyTruthy localP && pyTruthy cloudP then
    -- Case 3: both exist - check for conflicts
    let lp := localP.getD []
    let cp := cloudP.getD []
    let local_hash := get_profile_hash lp
    let cloud_hash := get_profile_hash cp
    if local_hash = cloud_hash then
      (⟨"synced", "already_synced", some lp, none⟩, s1)
    else
      let resolved := resolve_conflict s1 lp cp strategy
      let saved := save_local_profile resolved.2 profile_id resolved.1
      let pushed := push_cloud_profile saved.2.2 profile_id saved.2.1
      (⟨"synced", "conflict_resolved", some pushed.2.1, some strategy⟩, pushed.2.2)
  else
    -- Case 4: neither exists
    (⟨"error", "profile_not_found", none, none⟩, s1)

/-! ## Concrete states used by witnesses and counterexamples -/

/-- A store holding a single non-empty local profile, cloud configured, empty
remote store and log: the plain "local only" situation. -/
def localOnlyState : SyncState :=
  ⟨[("p1", [("name", JsonVal.str "a")])], [], true, [], "2024-01-01T00:00:00"⟩

/-- A local replica holding an *empty* document for `p1` (the file contains
`{}`), with the cloud configured and empty. -/
def emptyDocState : SyncState :=
  ⟨[("p1", [])], [], true, [], "2024-01-01T00:00:00"⟩

/-- Engine with `cloud_url=None` whose shared directory nevertheless holds a
cloud shadow file; the local profile is present. -/
def noCloudUrlState : SyncState :=
  ⟨[("p1", [("name", JsonVal.str "a")])], [("p1", [("x", JsonVal.int 1)])], false, [],
    "2024-01-01T00:00:00"⟩

/-- A state with neither replica holding the profile. -/
def bothAbsentState : SyncState := ⟨[], [], true, [], "2024-01-01T00:00:00"⟩

/-- Both replicas hold the same non-empty document. -/
def bothEqualState : SyncState :=
  ⟨[("p1", [("name", JsonVal.str "a")])], [("p1", [("name", JsonVal.str "a")])], true, [],
    "2024-01-01T00:00:00"⟩

/-- A sample log entry for exercising the log bound. -/
def sampleEntry : LogEntry := ⟨"2024-01-01T00:00:00", "info", "synced"⟩

/-- A state whose log holds three entries. -/
def threeLogState : SyncState :=
  ⟨[], [], true,
    [⟨"t1", "info", "a"⟩, ⟨"t2", "info", "b"⟩, ⟨"t3", "info", "c"⟩],
    "2024-01-01T00:00:00"⟩

/-! ## Order lemmas for the code-point string comparison -/

theorem charListLt_irrefl : ∀ l : List Char, charListLt l l = false
  | [] => rfl
  | c :: cs => by
    simp only [charListLt, lt_irrefl, if_false]
    exact charListLt_irrefl cs

theorem charListLt_asymm : ∀ {a b : List Char},
    charListLt a b = true → charListLt b a = false
  | [], [], h => by simp [charListLt] at h
  | [], _ :: _, _ => rfl
  | _ :: _, [], h => by simp [charListLt] at h
  | c :: cs, d :: ds, h => by
    simp only [charListLt] at h ⊢
    rcases lt_trichotomy c d with hcd | hcd | hcd
    · simp [hcd, not_lt_of_lt hcd]
    · subst hcd
      simp only [lt_irrefl, if_false] at h ⊢
      exact charListLt_asymm h
    · simp [hcd, not_lt_of_lt hcd] at h

theorem charListLt_connex : ∀ {a b : List Char},
    charListLt a b = false → charListLt b a = false → a = b
  | [], [], _, _ => rfl
  | [], _ :: _, h, _ => by simp [charListLt] at h
  | _ :: _, [], _, h => by simp [charListLt] at h
  | c :: cs, d :: ds, h1, h2 => by
    simp only [charListLt] at h1 h2
    rcases lt_trichotomy c d with hcd | hcd | hcd
    · simp [hcd] at h1
    · subst hcd
      simp only [lt_irrefl, if_false] at h1 h2
      rw [charListLt_connex h1 h2]
    · simp [hcd] at h2

theorem charListLt_trans : ∀ {a b c : List Char},
    charListLt a b = true → charListLt b c = true → charListLt a c = true
  | [], [], _, h, _ => by simp [charListLt] at h
  | [], _ :: _, [], _, h => by simp [charListLt] at h
  | [], _ :: _, _ :: _, _, _ => rfl
  | _ :: _, [], _, h, _ => by simp [charListLt] at h
  | _ :: _, _ :: _, [], _, h => by simp [charListLt] at h
  | a :: as, b :: bs, c :: cs, h1, h2 => by
    simp only [charListLt] at h1 h2 ⊢
    rcases lt_trichotomy a b with hab | hab | hab
    · rcases lt_trichotomy b c with hbc | hbc | hbc
      · simp [lt_trans hab hbc]
      · subst hbc; simp [hab]
      · simp [hbc, not_lt_of_lt hbc] at h2
    · subst hab
      simp only [lt_irrefl, if_false] at h1
      rcases lt_trichotomy a c with hac | hac | hac
      · simp [hac]
      · subst hac
        simp only [lt_irrefl, if_false] at h2 ⊢
        exact charListLt_trans h1 h2
      · simp [hac, not_lt_of_lt hac] at h2
    · simp [hab, not_lt_of_lt hab] at h1

theorem pyStrLt_asymm {a b : String} (h : pyStrLt a b = true) : pyStrLt b a = false :=
  charListLt_asymm h

theorem pyStrLt_connex {a b : String} (h1 : pyStrLt a b = false)
    (h2 : pyStrLt b a = false) : a = b := by
  cases a with
  | mk da => cases b with
    | mk db => exact congrArg String.mk (charListLt_connex h1 h2)

instance : IsTotal (String × JsonVal) keyLe :=
  ⟨fun a b => by
    by_cases h : pyStrLt b.1 a.1 = true
    · right
      have h' : pyStrLt a.1 b.1 = false := pyStrLt_asymm h
      simp only [keyLe, pyStrLe, h', Bool.not_false]
    · left
      simp only [Bool.not_eq_true] at h
      simp only [keyLe, pyStrLe, h, Bool.not_false]⟩

instance : IsTrans (String × JsonVal) keyLe :=
  ⟨fun a b c hab hbc => by
    simp only [keyLe, pyStrLe, Bool.not_eq_true'] at hab hbc ⊢
    by_contra hca
    rw [Bool.not_eq_false] at hca
    by_cases hbc2 : pyStrLt b.1 c.1 = true
    · have h2 : pyStrLt b.1 a.1 = true := charListLt_trans hbc2 hca
      rw [hab] at h2
      exact Bool.false_ne_true h2
    · rw [Bool.not_eq_true] at hbc2
      have hbeq : c.1 = b.1 := pyStrLt_connex hbc hbc2
      rw [hbeq] at hca
      rw [hab] at hca
      exact Bool.false_ne_true hca⟩

/-- Strict key order: used to show a key-sorted list with distinct keys is
uniquely determined. -/
def keyLt (a b : String × JsonVal) : Prop := pyStrLt a.1 b.1 = true

instance : IsAntisymm (String × JsonVal) keyLt :=
  ⟨fun a b h1 h2 => absurd h2 (by simp [keyLt, pyStrLt_asymm h1])⟩

theorem sortFields_perm (fs : List (String × JsonVal)) : List.Perm (sortFields fs) fs :=
  List.perm_insertionSort keyLe fs

theorem sortFields_sorted (fs : List (String × JsonVal)) :
    List.Sorted keyLe (sortFields fs) :=
  List.sorted_insertionSort keyLe fs

theorem sorted_keyLt_of_nodup {fs : List (String × JsonVal)}
    (h : List.Sorted keyLe fs) (hn : (fs.map Prod.fst).Nodup) :
    List.Sorted keyLt fs := by
  have hne : List.Pairwise (fun a b : String × JsonVal => a.1 ≠ b.1) fs :=
    List.pairwise_map.mp hn
  refine (h.and hne).imp ?_
  rintro a b ⟨hle, hne'⟩
  simp only [keyLe, pyStrLe, Bool.not_eq_true'] at hle
  by_cases hab : pyStrLt a.1 b.1 = true
  · exact hab
  · rw [Bool.not_eq_true] at hab
    exact absurd (pyStrLt_connex hab hle) hne'

theorem sortFields_eq_of_perm {a b : List (String × JsonVal)} (hp : List.Perm a b)
    (hn : (a.map Prod.fst).Nodup) : sortFields a = sortFields b := by
  have perm : List.Perm (sortFields a) (sortFields b) :=
    (sortFields_perm a).trans (hp.trans (sortFields_perm b).symm)
  have hna : ((sortFields a).map Prod.fst).Nodup :=
    (((sortFields_perm a).map Prod.fst).nodup_iff).mpr hn
  have hnb : ((sortFields b).map Prod.fst).Nodup :=
    (((sortFields_perm b).map Prod.fst).nodup_iff).mpr
      (((hp.map Prod.fst).nodup_iff).mp hn)
  exact List.eq_of_perm_of_sorted perm
    (sorted_keyLt_of_nodup (sortFields_sorted a) hna)
    (sorted_keyLt_of_nodup (sortFields_sorted b) hnb)

theorem sortKeysDeepObj_map (fs : List (String × JsonVal)) :
    sortKeysDeepObj fs = fs.map (fun kv => (kv.1, sortKeysDeep kv.2)) := by
  induction fs with
  | nil => rfl
  | cons kv rest ih => cases kv; simp [sortKeysDeepObj, ih]

theorem get_profile_hash_perm {p q : Profile} (hp : List.Perm p q)
    (hn : (p.map Prod.fst).Nodup) : get_profile_hash p = get_profile_hash q := by
  unfold get_profile_hash jsonDumpsSorted
  rw [show sortKeysDeep (JsonVal.obj p) = JsonVal.obj (sortFields (sortKeysDeepObj p)) from rfl,
    show sortKeysDeep (JsonVal.obj q) = JsonVal.obj (sortFields (sortKeysDeepObj q)) from rfl]
  have hperm : List.Perm (sortKeysDeepObj p) (sortKeysDeepObj q) := by
    rw [sortKeysDeepObj_map, sortKeysDeepObj_map]
    exact hp.map _
  have hnp : ((sortKeysDeepObj p).map Prod.fst).Nodup := by
    rw [sortKeysDeepObj_map, List.map_map]
    exact hn
  rw [sortFields_eq_of_perm hperm hnp]

/-! ## Lemmas about the bounded log -/

theorem takeLast_eq_revtake {α : Type} (n : Nat) (l : List α) :
    takeLast n l = (l.reverse.take n).reverse :=
  List.rtake_eq_reverse_take_reverse l n

theorem takeLast_of_length_le {α : Type} {n : Nat} {l : List α}
    (h : l.length ≤ n) : takeLast n l = l := by
  unfold takeLast
  rw [Nat.sub_eq_zero_of_le h, List.drop_zero]

theorem length_takeLast {α : Type} (n : Nat) (l : List α) :
    (takeLast n l).length = min n l.length := by
  unfold takeLast
  rw [List.length_drop]
  omega

theorem takeLast_append_takeLast {α : Type} (n : Nat) (a b : List α) :
    takeLast n (takeLast n a ++ b) = takeLast n (a ++ b) := by
  simp only [takeLast_eq_revtake, List.reverse_append, List.reverse_reverse]
  rw [List.take_append_eq_append_take, List.take_take,
    Nat.min_eq_left (Nat.sub_le n b.reverse.length),
    ← List.take_append_eq_append_take]

theorem logStep_eq (l : List LogEntry) (e : LogEntry) :
    logStep l e = takeLast 100 (l ++ [e]) := by
  unfold logStep
  by_cases h : 100 < (l ++ [e]).length
  · rw [if_pos h]
  · rw [if_neg h, takeLast_of_length_le (by omega)]

theorem length_logStep_le (l : List LogEntry) (e : LogEntry) :
    (logStep l e).length ≤ 100 ∨ (l ++ [e]).length ≤ 100 := by
  rw [logStep_eq, length_takeLast]
  omega

theorem foldl_logStep (es : List LogEntry) :
    ∀ l : List LogEntry, l.length ≤ 100 →
      es.foldl logStep l = takeLast 100 (l ++ es) := by
  induction es with
  | nil => intro l h; rw [List.foldl_nil, List.append_nil, takeLast_of_length_le h]
  | cons e tl ih =>
    intro l h
    rw [List.foldl_cons, ih (logStep l e) (by rw [logStep_eq, length_takeLast]; omega),
      logStep_eq, takeLast_append_takeLast, List.append_assoc, List.singleton_append]

/-! ## Lemmas about dictionaries and stores -/

theorem dictGet_append (a b : Profile) (k : String) :
    dictGet (a ++ b) k =
      match dictGet a k with
      | some v => some v
      | none => dictGet b k := by
  induction a with
  | nil => simp [dictGet]
  | cons kv rest ih =>
    cases kv with
    | mk k' v =>
      by_cases h : k' = k
      · simp [dictGet, h]
      · simp [dictGet, h, ih]

theorem dictGet_mapValues (l c : Profile) (k : String) :
    dictGet (l.map (fun kv => (kv.1, (dictGet c kv.1).getD kv.2))) k =
      (dictGet l k).map (fun v => (dictGet c k).getD v) := by
  induction l with
  | nil => simp [dictGet]
  | cons kv rest ih =>
    cases kv with
    | mk k' v =>
      by_cases h : k' = k
      · subst h; simp [dictGet, ih]
      · simp [dictGet, h, ih]

theorem dictGet_filterNotIn (l c : Profile) (k : String) :
    dictGet (c.filter (fun kv => (dictGet l kv.1).isNone)) k =
      if (dictGet l k).isSome then none else dictGet c k := by
  induction c with
  | nil => simp [dictGet]
  | cons kv rest ih =>
    cases kv with
    | mk k' v =>
      by_cases h : k' = k
      · subst h
        cases hl : dictGet l k' with
        | some w => simp [List.filter, dictGet, hl, ih]
        | none => simp [List.filter, dictGet, hl]
      · cases hl : dictGet l k' with
        | some w => simp [List.filter, dictGet, hl, h, ih]
        | none => simp [List.filter, dictGet, hl, h, ih]

theorem dictGet_dictUnion (l c : Profile) (k : String) :
    dictGet (dictUnion l c) k =
      match dictGet c k with
      | some v => some v
      | none => dictGet l k := by
  unfold dictUnion
  rw [dictGet_append, dictGet_mapValues, dictGet_filterNotIn]
  cases hl : dictGet l k with
  | some lv => cases hc : dictGet c k <;> simp
  | none => cases hc : dictGet c k <;> simp

theorem storeGet_storeSet_self (st : List (String × Profile)) (k : String)
    (p : Profile) : storeGet (storeSet st k p) k = some p := by
  induction st with
  | nil => simp [storeGet, storeSet]
  | cons kv rest ih =>
    cases kv with
    | mk k' v =>
      by_cases h : k' = k
      · simp [storeGet, storeSet, h]
      · simp [storeGet, storeSet, h, ih]

/-! ## Claim theorems -/

/-- C10: `get_sync_log(limit)` with `limit = 0` returns the entire stored log
rather than an empty sequence (Python `l[-0:]` is `l[0:]`), and for every
`limit > 0` it returns the `min(limit, log length)` most recent entries as a
suffix of the stored log, hence oldest first. -/
theorem get_sync_log_limit_spec (s : SyncState) (limit : Int) :
    get_sync_log s 0 = s.syncLog ∧
    (0 < limit →
      get_sync_log s limit = takeLast limit.toNat s.syncLog ∧
      (get_sync_log s limit).length = min limit.toNat s.syncLog.length) := by
  constructor
  · simp [get_sync_log, pySliceFrom]
  · intro h
    have key : get_sync_log s limit = takeLast limit.toNat s.syncLog := by
      unfold get_sync_log pySliceFrom takeLast
      rw [if_pos (by omega)]
      congr 1
      omega
    refine ⟨key, ?_⟩
    rw [key, length_takeLast]

/-- Witness for C10 on a three-entry log with `limit = 0` and `limit = 2`. -/
theorem get_sync_log_limit_spec_witness :
    get_sync_log threeLogState 0 = threeLogState.syncLog ∧
    get_sync_log threeLogState 2 = takeLast 2 threeLogState.syncLog ∧
    (get_sync_log threeLogState 2).length = min 2 threeLogState.syncLog.length := by
  obtain ⟨h0, h2⟩ := get_sync_log_limit_spec threeLogState 2
  have h := h2 (by norm_num)
  exact ⟨h0, h.1, h.2⟩

/-- C8: the operation log is capped at 100 entries — each append keeps at
most 100 entries, evicting the oldest first — and after any 150 appends
starting from an empty log the stored log (and therefore `get_log(1000)`) is
exactly the suffix of the 100 most recent entries in chronological
(oldest-first) order. -/
theorem sync_log_cap_spec (es : List LogEntry) (s : SyncState)
    (h150 : es.length = 150) (hs : s.syncLog = es.foldl logStep []) :
    (∀ (l : List LogEntry) (e : LogEntry), l.length ≤ 100 →
      (logStep l e).length ≤ 100) ∧
    s.syncLog = takeLast 100 es ∧
    s.syncLog.length = 100 ∧
    get_sync_log s 1000 = takeLast 100 es := by
  have hfold : es.foldl logStep [] = takeLast 100 es := by
    rw [foldl_logStep es [] (by simp), List.nil_append]
  have hlog : s.syncLog = takeLast 100 es := by rw [hs, hfold]
  have hlen : s.syncLog.length = 100 := by
    rw [hlog, length_takeLast, h150]
    omega
  refine ⟨fun l e h => ?_, hlog, hlen, ?_⟩
  · rw [logStep_eq, length_takeLast]
    omega
  · unfold get_sync_log pySliceFrom
    rw [if_pos (by omega), hlen]
    norm_num
    exact hlog

set_option maxRecDepth 4000

/-- Witness for C8: 150 identical appends onto a fresh engine. -/
theorem sync_log_cap_spec_witness :
    (List.replicate 150 sampleEntry).length = 150 ∧
    (SyncState.mk [] [] true ((List.replicate 150 sampleEntry).foldl logStep [])
        "t").syncLog = takeLast 100 (List.replicate 150 sampleEntry) := by
  refine ⟨by simp, ?_⟩
  exact (sync_log_cap_spec (List.replicate 150 sampleEntry) _ (by simp) rfl).2.1

/-- C6: the `merge` strategy returns the shallow key-union `{**local,
**cloud}` of the two documents: for every key the merged value is the remote
(cloud) value when the key is present there — replacing the local value
wholesale, nested structures included — and the local value otherwise, so a
key present in only one document keeps that document's value. -/
theorem resolve_merge_spec (s : SyncState) (local_profile cloud_profile : Profile) :
    (resolve_conflict s local_profile cloud_profile "merge").1 =
      dictUnion local_profile cloud_profile ∧
    ∀ k : String,
      dictGet (dictUnion local_profile cloud_profile) k =
        match dictGet cloud_profile k with
        | some v => some v
        | none => dictGet local_profile k := by
  exact ⟨rfl, fun k => dictGet_dictUnion local_profile cloud_profile k⟩

/-- C7 counterexample: with the unrecognized strategy name `"bogus"` the
resolver does return the local document, but it appends *no* log entry
(the log is the same empty list as before the call), contradicting the
claim that the fallback is logged as such. -/
theorem resolve_unknown_no_log :
    (resolve_conflict localOnlyState [("a", JsonVal.int 1)] [("b", JsonVal.int 2)]
        "bogus").1 = [("a", JsonVal.int 1)] ∧
    (resolve_conflict localOnlyState [("a", JsonVal.int 1)] [("b", JsonVal.int 2)]
        "bogus").2.syncLog = [] :=
  ⟨rfl, rfl⟩

/-- C7 (amended): for every strategy name outside `newest`/`local`/`cloud`/
`merge` the resolution policy raises no error and returns the local document
unchanged, leaving the engine state — including the log — untouched (the
fallback is silent, not logged). -/
theorem resolve_unknown_returns_local (s : SyncState)
    (local_profile cloud_profile : Profile) (strategy : String)
    (h1 : strategy ≠ "newest") (h2 : strategy ≠ "local")
    (h3 : strategy ≠ "cloud") (h4 : strategy ≠ "merge") :
    resolve_conflict s local_profile cloud_profile strategy = (local_profile, s) := by
  simp [resolve_conflict, h1, h2, h3, h4]

/-- Witness for C7's amended theorem at the strategy name `"fallback"`. -/
theorem resolve_unknown_returns_local_witness :
    resolve_conflict bothAbsentState [("a", JsonVal.int 1)] [] "fallback" =
      ([("a", JsonVal.int 1)], bothAbsentState) :=
  resolve_unknown_returns_local _ _ _ _ (by decide) (by decide) (by decide) (by decide)

theorem dictGetStrD_eq {p : Profile} {k d x : String}
    (h : dictGetStr p k d = some x) : dictGetStrD p k d = x := by
  unfold dictGetStr at h
  unfold dictGetStrD
  cases hg : dictGet p k with
  | none =>
    rw [hg] at h
    simpa using h
  | some v =>
    rw [hg] at h
    cases v <;> simp_all

/-- C3: the `newest` strategy compares `local.last_sync` against
`remote.last_cloud_sync` as strings, substituting `"1970-01-01T00:00:00"`
for an absent field, and returns in full whichever document's field
string-compares greater (`dictGetStr` pins the fields to be strings or
absent, as in every execution that does not raise). -/
theorem resolve_newest_spec (s : SyncState) (local_profile cloud_profile : Profile)
    (lt ct : String)
    (hl : dictGetStr local_profile "last_sync" "1970-01-01T00:00:00" = some lt)
    (hc : dictGetStr cloud_profile "last_cloud_sync" "1970-01-01T00:00:00" = some ct) :
    (pyStrLt ct lt = true →
      (resolve_conflict s local_profile cloud_profile "newest").1 = local_profile) ∧
    (pyStrLt lt ct = true →
      (resolve_conflict s local_profile cloud_profile "newest").1 = cloud_profile) := by
  have hl' := dictGetStrD_eq hl
  have hc' := dictGetStrD_eq hc
  constructor
  · intro hgt
    simp [resolve_conflict, hl', hc', hgt]
  · intro hgt
    have hlt : pyStrLt ct lt = false := pyStrLt_asymm hgt
    simp [resolve_conflict, hl', hc', hlt]

/-- Witness for C3, including the spec's concrete instance: local
`last_sync = "2024-01-01T00:00:00"`, remote
`last_cloud_sync = "2024-06-01T00:00:00"`; the remote document wins. -/
theorem resolve_newest_spec_witness :
    dictGetStr [("last_sync", JsonVal.str "2024-01-01T00:00:00")] "last_sync"
        "1970-01-01T00:00:00" = some "2024-01-01T00:00:00" ∧
    pyStrLt "2024-01-01T00:00:00" "2024-06-01T00:00:00" = true ∧
    (resolve_conflict localOnlyState
        [("last_sync", JsonVal.str "2024-01-01T00:00:00")]
        [("last_cloud_sync", JsonVal.str "2024-06-01T00:00:00")] "newest").1 =
      [("last_cloud_sync", JsonVal.str "2024-06-01T00:00:00")] := by
  refine ⟨rfl, by decide, ?_⟩
  exact (resolve_newest_spec localOnlyState
    [("last_sync", JsonVal.str "2024-01-01T00:00:00")]
    [("last_cloud_sync", JsonVal.str "2024-06-01T00:00:00")]
    "2024-01-01T00:00:00" "2024-06-01T00:00:00" rfl rfl).2 (by decide)

/-- C9: with `cloud_url` unset, `push_cloud_profile` returns `False` without
writing or stamping anything, yet `sync_profile` on a locally-present profile
ignores that value and still reports `synced` / `uploaded_to_cloud` with the
unmodified local document; the whole state — remote store included — is
unchanged, so a reported upload does not imply the remote replica was
written. -/
theorem sync_no_cloud_url_reports_upload (s : SyncState)
    (profile_id strategy : String) (l : Profile) (h1 : s.hasCloudUrl = false)
    (h2 : storeGet s.localStore profile_id = some l) (h3 : l ≠ []) :
    push_cloud_profile s profile_id l = (false, l, s) ∧
    sync_profile s profile_id strategy =
      (⟨"synced", "uploaded_to_cloud", some l, none⟩, s) := by
  cases l with
  | nil => exact absurd rfl h3
  | cons x xs =>
    refine ⟨by simp [push_cloud_profile, h1], ?_⟩
    simp [sync_profile, load_local_profile, fetch_cloud_profile,
      push_cloud_profile, h1, h2, pyTruthy]

/-- Witness for C9 on a store whose shared directory even holds a cloud
shadow document: the engine cannot see it without `cloud_url`. -/
theorem sync_no_cloud_url_reports_upload_witness :
    sync_profile noCloudUrlState "p1" "newest" =
      (⟨"synced", "uploaded_to_cloud", some [("name", JsonVal.str "a")], none⟩,
        noCloudUrlState) :=
  (sync_no_cloud_url_reports_upload noCloudUrlState "p1" "newest"
    [("name", JsonVal.str "a")] rfl rfl (by simp)).2

/-- C4 counterexample: the local replica *does* hold a document for `p1` —
the empty mapping, a well-formed profile — yet `sync_profile` reports status
`error` / `profile_not_found`, because the case analysis tests Python
truthiness rather than presence; `error` is therefore not confined to
profiles absent from both replicas. -/
theorem sync_empty_doc_error :
    storeGet emptyDocState.localStore "p1" = some [] ∧
    (sync_profile emptyDocState "p1" "newest").1.status = "error" ∧
    (sync_profile emptyDocState "p1" "newest").1.action = "profile_not_found" :=
  ⟨rfl, rfl, rfl⟩


theorem sync_profile_case1 (s : SyncState) (profile_id strategy : String)
    (hL : pyTruthy (load_local_profile s profile_id) = true)
    (hC : pyTruthy (fetch_cloud_profile s profile_id).1 = false) :
    sync_profile s profile_id strategy =
      (⟨"synced", "uploaded_to_cloud",
          some (push_cloud_profile (fetch_cloud_profile s profile_id).2 profile_id
            ((load_local_profile s profile_id).getD [])).2.1, none⟩,
        (push_cloud_profile (fetch_cloud_profile s profile_id).2 profile_id
          ((load_local_profile s profile_id).getD [])).2.2) := by
  simp [sync_profile, hL, hC]

theorem sync_profile_case2 (s : SyncState) (profile_id strategy : String)
    (hL : pyTruthy (load_local_profile s profile_id) = false)
    (hC : pyTruthy (fetch_cloud_profile s profile_id).1 = true) :
    sync_profile s profile_id strategy =
      (⟨"synced", "downloaded_from_cloud",
          some (save_local_profile (fetch_cloud_profile s profile_id).2 profile_id
            ((fetch_cloud_profile s profile_id).1.getD [])).2.1, none⟩,
        (save_local_profile (fetch_cloud_profile s profile_id).2 profile_id
          ((fetch_cloud_profile s profile_id).1.getD [])).2.2) := by
  simp [sync_profile, hL, hC]

theorem sync_profile_case3_eq (s : SyncState) (profile_id strategy : String)
    (hL : pyTruthy (load_local_profile s profile_id) = true)
    (hC : pyTruthy (fetch_cloud_profile s profile_id).1 = true)
    (hh : get_profile_hash ((load_local_profile s profile_id).getD []) =
      get_profile_hash ((fetch_cloud_profile s profile_id).1.getD [])) :
    sync_profile s profile_id strategy =
      (⟨"synced", "already_synced",
          some ((load_local_profile s profile_id).getD []), none⟩,
        (fetch_cloud_profile s profile_id).2) := by
  simp [sync_profile, hL, hC, hh]

theorem sync_profile_case3_ne (s : SyncState) (profile_id strategy : String)
    (hL : pyTruthy (load_local_profile s profile_id) = true)
    (hC : pyTruthy (fetch_cloud_profile s profile_id).1 = true)
    (hh : get_profile_hash ((load_local_profile s profile_id).getD []) ≠
      get_profile_hash ((fetch_cloud_profile s profile_id).1.getD [])) :
    sync_profile s profile_id strategy =
      (⟨"synced", "conflict_resolved",
          some (push_cloud_profile
            (save_local_profile
              (resolve_conflict (fetch_cloud_profile s profile_id).2
                ((load_local_profile s profile_id).getD [])
                ((fetch_cloud_profile s profile_id).1.getD []) strategy).2
              profile_id
              (resolve_conflict (fetch_cloud_profile s profile_id).2
                ((load_local_profile s profile_id).getD [])
                ((fetch_cloud_profile s profile_id).1.getD []) strategy).1).2.2
            profile_id
            (save_local_profile
              (resolve_conflict (fetch_cloud_profile s profile_id).2
                ((load_local_profile s profile_id).getD [])
                ((fetch_cloud_profile s profile_id).1.getD []) strategy).2
              profile_id
              (resolve_conflict (fetch_cloud_profile s profile_id).2
                ((load_local_profile s profile_id).getD [])
                ((fetch_cloud_profile s profile_id).1.getD []) strategy).1).2.1).2.1,
          some strategy⟩,
        (push_cloud_profile
          (save_local_profile
            (resolve_conflict (fetch_cloud_profile s profile_id).2
              ((load_local_profile s profile_id).getD [])
              ((fetch_cloud_profile s profile_id).1.getD []) strategy).2
            profile_id
            (resolve_conflict (fetch_cloud_profile s profile_id).2
              ((load_local_profile s profile_id).getD [])
              ((fetch_cloud_profile s profile_id).1.getD []) strategy).1).2.2
          profile_id
          (save_local_profile
            (resolve_conflict (fetch_cloud_profile s profile_id).2
              ((load_local_profile s profile_id).getD [])
              ((fetch_cloud_profile s profile_id).1.getD []) strategy).2
            profile_id
            (resolve_conflict (fetch_cloud_profile s profile_id).2
              ((load_local_profile s profile_id).getD [])
              ((fetch_cloud_profile s profile_id).1.getD []) strategy).1).2.1).2.2) := by
  simp [sync_profile, hL, hC, hh]

theorem sync_profile_case4 (s : SyncState) (profile_id strategy : String)
    (hL : pyTruthy (load_local_profile s profile_id) = false)
    (hC : pyTruthy (fetch_cloud_profile s profile_id).1 = false) :
    sync_profile s profile_id strategy =
      (⟨"error", "profile_not_found", none, none⟩,
        (fetch_cloud_profile s profile_id).2) := by
  simp [sync_profile, hL, hC]

/-- C4 (amended): `sync_profile` returns status `error` — always with action
`profile_not_found` and an absent profile, never raising — exactly when
neither replica yields a truthy (present *and non-empty*) document, the
remote being read through `fetch_cloud_profile` (so with `cloud_url` unset
the remote always looks absent); every other case returns status `synced`. -/
theorem sync_error_iff_both_falsy (s : SyncState) (profile_id strategy : String) :
    ((sync_profile s profile_id strategy).1.status = "error" ↔
      (pyTruthy (load_local_profile s profile_id) = false ∧
        pyTruthy (fetch_cloud_profile s profile_id).1 = false)) ∧
    ((sync_profile s profile_id strategy).1.status = "error" →
      (sync_profile s profile_id strategy).1 =
        ⟨"error", "profile_not_found", none, none⟩) ∧
    ((sync_profile s profile_id strategy).1.status = "error" ∨
      (sync_profile s profile_id strategy).1.status = "synced") := by
  by_cases hL : pyTruthy (load_local_profile s profile_id) = true <;>
    by_cases hC : pyTruthy (fetch_cloud_profile s profile_id).1 = true
  · by_cases hh : get_profile_hash ((load_local_profile s profile_id).getD []) =
        get_profile_hash ((fetch_cloud_profile s profile_id).1.getD [])
    · rw [sync_profile_case3_eq s profile_id strategy hL hC hh]
      simp [hL]
    · rw [sync_profile_case3_ne s profile_id strategy hL hC hh]
      simp [hL]
  · rw [sync_profile_case1 s profile_id strategy hL (by simpa using hC)]
    simp [hL]
  · rw [sync_profile_case2 s profile_id strategy (by simpa using hL) hC]
    simp [hC]
  · rw [sync_profile_case4 s profile_id strategy (by simpa using hL) (by simpa using hC)]
    simp [(by simpa using hL : pyTruthy (load_local_profile s profile_id) = false),
      (by simpa using hC : pyTruthy (fetch_cloud_profile s profile_id).1 = false)]

/-- Witness for C4's amended theorem: with both replicas empty the result is
the `profile_not_found` error record. -/
theorem sync_error_iff_both_falsy_witness :
    (sync_profile bothAbsentState "nonexistent" "newest").1 =
      ⟨"error", "profile_not_found", none, none⟩ :=
  (sync_error_iff_both_falsy bothAbsentState "nonexistent" "newest").2.1
    ((sync_error_iff_both_falsy bothAbsentState "nonexistent" "newest").1.mpr ⟨rfl, rfl⟩)

/-- C1 counterexample: syncing a profile that exists only locally uploads the
document *after stamping `last_cloud_sync` into it*, so the remote store ends
up holding a document whose digest differs from the digest of the pre-sync
local body (and the returned profile is the stamped document, not the pre-sync
local copy). -/
theorem sync_local_only_remote_digest_ne :
    (sync_profile localOnlyState "p1" "newest").1.status = "synced" ∧
    (sync_profile localOnlyState "p1" "newest").1.action = "uploaded_to_cloud" ∧
    storeGet (sync_profile localOnlyState "p1" "newest").2.cloudStore "p1" =
      some [("name", JsonVal.str "a"),
        ("last_cloud_sync", JsonVal.str "2024-01-01T00:00:00")] ∧
    get_profile_hash [("name", JsonVal.str "a"),
        ("last_cloud_sync", JsonVal.str "2024-01-01T00:00:00")] ≠
      get_profile_hash [("name", JsonVal.str "a")] ∧
    (sync_profile localOnlyState "p1" "newest").1.profile =
      some [("name", JsonVal.str "a"),
        ("last_cloud_sync", JsonVal.str "2024-01-01T00:00:00")] ∧
    ([("name", JsonVal.str "a"),
        ("last_cloud_sync", JsonVal.str "2024-01-01T00:00:00")] : Profile) ≠
      [("name", JsonVal.str "a")] :=
  ⟨rfl, rfl, rfl, by decide, rfl,
    fun h => absurd (congrArg get_profile_hash h) (by decide)⟩

/-- C1 (amended): for a profile present (non-empty) only on the local replica
of a cloud-configured engine, `sync_profile` returns `synced` /
`uploaded_to_cloud`; the remote store afterwards contains the pre-sync local
body with `last_cloud_sync` set to the push time — digest-equal to the
returned profile, which is that same stamped document — and the local store
is untouched. -/
theorem sync_local_only_spec (s : SyncState) (profile_id strategy : String)
    (l : Profile) (h1 : s.hasCloudUrl = true)
    (h2 : storeGet s.localStore profile_id = some l) (h3 : l ≠ [])
    (h4 : storeGet s.cloudStore profile_id = none) :
    (sync_profile s profile_id strategy).1.status = "synced" ∧
    (sync_profile s profile_id strategy).1.action = "uploaded_to_cloud" ∧
    (sync_profile s profile_id strategy).1.profile =
      some (dictSet l "last_cloud_sync" (JsonVal.str s.now)) ∧
    storeGet (sync_profile s profile_id strategy).2.cloudStore profile_id =
      some (dictSet l "last_cloud_sync" (JsonVal.str s.now)) ∧
    (sync_profile s profile_id strategy).2.localStore = s.localStore := by
  have hfetch : fetch_cloud_profile s profile_id = (none, s) := by
    simp [fetch_cloud_profile, h1, h4]
  have hLt : pyTruthy (load_local_profile s profile_id) = true := by
    rw [show load_local_profile s profile_id = some l from h2]
    cases l with
    | nil => exact absurd rfl h3
    | cons x xs => rfl
  have hCf : pyTruthy (fetch_cloud_profile s profile_id).1 = false := by
    rw [hfetch]
    rfl
  rw [sync_profile_case1 s profile_id strategy hLt hCf]
  simp [hfetch, load_local_profile, h2, push_cloud_profile, h1, log_sync,
    storeGet_storeSet_self]

/-- Witness for C1's amended theorem on the one-profile local-only store. -/
theorem sync_local_only_spec_witness :
    (sync_profile localOnlyState "p1" "newest").1.action = "uploaded_to_cloud" ∧
    (sync_profile localOnlyState "p1" "newest").1.profile =
      some (dictSet [("name", JsonVal.str "a")] "last_cloud_sync"
        (JsonVal.str localOnlyState.now)) := by
  have h := sync_local_only_spec localOnlyState "p1" "newest"
    [("name", JsonVal.str "a")] rfl rfl (by simp) rfl
  exact ⟨h.2.1, h.2.2.1⟩

/-- C2 counterexample: on a profile that exists only locally, the first
`sync` uploads a copy stamped with `last_cloud_sync` while leaving the local
file unstamped, so the two replicas' digests now differ and the second call —
with no intervening writes by anyone else — reports `conflict_resolved`, not
`already_synced`. -/
theorem sync_twice_not_already_synced :
    (sync_profile localOnlyState "p1" "newest").1.action = "uploaded_to_cloud" ∧
    (sync_profile (sync_profile localOnlyState "p1" "newest").2 "p1"
        "newest").1.action = "conflict_resolved" ∧
    (sync_profile (sync_profile localOnlyState "p1" "newest").2 "p1"
        "newest").1.action ≠ "already_synced" :=
  ⟨rfl, rfl, by decide⟩

/-- C2 (amended): `sync` is idempotent only from the already-synced state —
when both replicas hold non-empty documents with equal digests, the call
returns `already_synced` and leaves both stores unchanged, so the immediately
repeated call returns `already_synced` again.  (The local-only and
remote-only paths stamp metadata into one replica only and so do not reach
this state; see the counterexample.) -/
theorem sync_already_synced_idempotent (s : SyncState)
    (profile_id strategy : String) (l c : Profile) (hcu : s.hasCloudUrl = true)
    (h1 : storeGet s.localStore profile_id = some l) (h2 : l ≠ [])
    (h3 : storeGet s.cloudStore profile_id = some c) (h4 : c ≠ [])
    (h5 : get_profile_hash l = get_profile_hash c) :
    (sync_profile s profile_id strategy).1.action = "already_synced" ∧
    (sync_profile s profile_id strategy).2.localStore = s.localStore ∧
    (sync_profile s profile_id strategy).2.cloudStore = s.cloudStore ∧
    (sync_profile (sync_profile s profile_id strategy).2 profile_id
        strategy).1.action = "already_synced" := by
  have key : ∀ t : SyncState, t.hasCloudUrl = true →
      storeGet t.localStore profile_id = some l →
      storeGet t.cloudStore profile_id = some c →
      sync_profile t profile_id strategy =
        (⟨"synced", "already_synced", some l, none⟩,
          log_sync t ("Fetched cloud profile " ++ profile_id) "success") := by
    intro t ht h1t h3t
    have hfetch : fetch_cloud_profile t profile_id =
        (some c, log_sync t ("Fetched cloud profile " ++ profile_id) "success") := by
      simp [fetch_cloud_profile, ht, h3t]
    have hLt : pyTruthy (load_local_profile t profile_id) = true := by
      rw [show load_local_profile t profile_id = some l from h1t]
      cases l with
      | nil => exact absurd rfl h2
      | cons x xs => rfl
    have hCt : pyTruthy (fetch_cloud_profile t profile_id).1 = true := by
      rw [hfetch]
      cases c with
      | nil => exact absurd rfl h4
      | cons x xs => rfl
    have hh : get_profile_hash ((load_local_profile t profile_id).getD []) =
        get_profile_hash ((fetch_cloud_profile t profile_id).1.getD []) := by
      rw [show load_local_profile t profile_id = some l from h1t, hfetch]
      simpa using h5
    rw [sync_profile_case3_eq t profile_id strategy hLt hCt hh]
    rw [show load_local_profile t profile_id = some l from h1t, hfetch]
    rfl
  have first := key s hcu h1 h3
  refine ⟨by rw [first], by rw [first]; rfl, by rw [first]; rfl, ?_⟩
  rw [first]
  have second := key (log_sync s ("Fetched cloud profile " ++ profile_id) "success")
    (by simpa [log_sync] using hcu) (by simpa [log_sync] using h1)
    (by simpa [log_sync] using h3)
  rw [second]

/-- Witness for C2's amended theorem: both replicas hold the same document. -/
theorem sync_already_synced_idempotent_witness :
    (sync_profile bothEqualState "p1" "newest").1.action = "already_synced" ∧
    (sync_profile (sync_profile bothEqualState "p1" "newest").2 "p1"
        "newest").1.action = "already_synced" := by
  have h := sync_already_synced_idempotent bothEqualState "p1" "newest"
    [("name", JsonVal.str "a")] [("name", JsonVal.str "a")] rfl rfl (by simp)
    rfl (by simp) rfl
  exact ⟨h.1, h.2.2.2⟩

/-- C5: the digest is deterministic, and two profiles have equal digests
exactly when their canonical serializations (keys sorted lexicographically at
every nesting level) are equal — the model treats SHA-256 as an injective
fingerprint, as stipulated by the spec's collision-resistance.  In
particular, documents differing only in mapping key order have equal
digests: stated both for a top-level key permutation (with the distinct keys
of a Python dict) and for any two documents with the same deeply key-sorted
form, which covers reordering at every nesting level. -/
theorem digest_canonical_spec :
    (∀ p : Profile, get_profile_hash p = get_profile_hash p) ∧
    (∀ p q : Profile, get_profile_hash p = get_profile_hash q ↔
      jsonDumpsSorted (JsonVal.obj p) = jsonDumpsSorted (JsonVal.obj q)) ∧
    (∀ p q : Profile, List.Perm p q → (p.map Prod.fst).Nodup →
      get_profile_hash p = get_profile_hash q) ∧
    (∀ p q : Profile, sortKeysDeep (JsonVal.obj p) = sortKeysDeep (JsonVal.obj q) →
      get_profile_hash p = get_profile_hash q) := by
  refine ⟨fun p => rfl, fun p q => Iff.rfl,
    fun p q hp hn => get_profile_hash_perm hp hn, fun p q h => ?_⟩
  unfold get_profile_hash jsonDumpsSorted
  rw [h]

/-- Witness for C5: a top-level key swap with distinct keys, and a document
whose *nested* object is additionally reordered, both digest-equal to the
original. -/
theorem digest_canonical_spec_witness :
    List.Perm
      ([("b", JsonVal.int 1),
        ("a", JsonVal.obj [("y", JsonVal.int 2), ("x", JsonVal.int 3)])] : Profile)
      [("a", JsonVal.obj [("y", JsonVal.int 2), ("x", JsonVal.int 3)]),
        ("b", JsonVal.int 1)] ∧
    (([("b", JsonVal.int 1),
        ("a", JsonVal.obj [("y", JsonVal.int 2), ("x", JsonVal.int 3)])] :
      Profile).map Prod.fst).Nodup ∧
    get_profile_hash
        [("b", JsonVal.int 1),
          ("a", JsonVal.obj [("y", JsonVal.int 2), ("x", JsonVal.int 3)])] =
      get_profile_hash
        [("a", JsonVal.obj [("y", JsonVal.int 2), ("x", JsonVal.int 3)]),
          ("b", JsonVal.int 1)] ∧
    get_profile_hash
        [("b", JsonVal.int 1),
          ("a", JsonVal.obj [("y", JsonVal.int 2), ("x", JsonVal.int 3)])] =
      get_profile_hash
        [("a", JsonVal.obj [("x", JsonVal.int 3), ("y", JsonVal.int 2)]),
          ("b", JsonVal.int 1)] := by
  have hp : List.Perm
      ([("b", JsonVal.int 1),
        ("a", JsonVal.obj [("y", JsonVal.int 2), ("x", JsonVal.int 3)])] : Profile)
      [("a", JsonVal.obj [("y", JsonVal.int 2), ("x", JsonVal.int 3)]),
        ("b", JsonVal.int 1)] :=
    List.Perm.swap _ _ _
  refine ⟨hp, by decide, digest_canonical_spec.2.2.1 _ _ hp (by decide), ?_⟩
  exact digest_canonical_spec.2.2.2 _ _ (by rfl)
